import Mathlib

/-!
# Verification of the SQS consumer (src/consumer.py)

A shallow embedding of the repository's message validator
(`process_sqs_message`), batch handler (`lambda_handler`), client
construction (`get_sqs_client`, and the configuration reading in `main`),
and the per-message handling of the local polling loop in `main`.

Python's `json.loads` is standard-library code outside this repository:
a message body is represented by the outcome of that call (either the
parsed JSON value or the parse error's description `str(ex)`), which is
the only way this program ever observes a body.  Everything after the
parse — the membership test `'data' not in message_data`, the exception
kinds raised, the except-clause dispatch, the tallying — is translated
from the source.
-/

namespace SqsBase

/-- A JSON value as returned by Python's `json.loads`: an object (dict with
string keys), array (list), string, number, boolean or null.  Number
payloads never matter to this program (they are only ever compared against
the string "data", which is false in Python across types), so an integer
payload suffices. -/
inductive Jval where
  | null : Jval
  | bool (b : Bool) : Jval
  | num (n : Int) : Jval
  | str (s : String) : Jval
  | arr (elems : List Jval) : Jval
  | obj (entries : List (String × Jval)) : Jval
deriving Repr

/-- The Python exception values this module raises or dispatches on.
`process_sqs_message` raises plain `Exception` (for wrapped load errors)
and `ValueError`; the membership test can raise `TypeError`; a missing
dict key raises `KeyError`; `json.JSONDecodeError` is the class named by
the poller's first except clause. -/
inductive PyErr where
  | exc (msg : String) : PyErr
  | valueError (msg : String) : PyErr
  | typeError (msg : String) : PyErr
  | keyError (key : String) : PyErr
  | jsonDecodeError (msg : String) : PyErr
deriving BEq, Repr

/-- Python's `str(ex)` on the exceptions above (`str` of a `KeyError`
renders the missing key in quotes). -/
def str_of_pyerr : PyErr → String
  | .exc m => m
  | .valueError m => m
  | .typeError m => m
  | .keyError k => "'" ++ k ++ "'"
  | .jsonDecodeError m => m

/-- Python's substring test `needle in haystack` on strings: some
contiguous run of `haystack` equals `needle`. -/
def strContainsSub (haystack needle : String) : Bool :=
  haystack.data.tails.any (fun t => needle.data.isPrefixOf t)

/-- Python's `==` between a string and a `json.loads` result: true only
for an equal string (equality across types is false in Python). -/
def py_str_eq (s : String) (v : Jval) : Bool :=
  match v with
  | .str s2 => s == s2
  | _ => false

/-- Python's membership test `key in v` on a `json.loads` result: key
lookup for a dict, element equality for a list (a string equals only an
equal string), substring for a string, and a `TypeError` for the
non-iterable results (`None`, booleans, numbers). -/
def py_in (key : String) (v : Jval) : Except PyErr Bool :=
  match v with
  | .obj entries => .ok (entries.any (fun kv => kv.1 == key))
  | .arr elems => .ok (elems.any (fun e => py_str_eq key e))
  | .str s => .ok (strContainsSub s key)
  | .null => .error (.typeError "argument of type 'NoneType' is not iterable")
  | .bool _ => .error (.typeError "argument of type 'bool' is not iterable")
  | .num _ => .error (.typeError "argument of type 'int' is not iterable")

/-- The outcome of the external `json.loads` call on a message body:
`.ok` the parsed value, or `.error` the parse error's description. -/
abbrev BodyParse := Except String Jval

/-- Embeds `process_sqs_message` (src/consumer.py:19-49).  The
`cb_datamap` argument is read by no validation logic and is omitted.
A failed `json.loads` is caught and re-raised as a plain
`Exception("[Data Load Error] [" + str(ex) + "]")`; then
`if 'data' not in message_data` raises
`ValueError("Message missing 'data' field")` when the membership test is
false, and lets the membership test's own `TypeError` propagate when the
parsed value is not iterable. -/
def process_sqs_message (body : BodyParse) : Except PyErr Unit :=
  match body with
  | .error ex => .error (.exc ("[Data Load Error] [" ++ ex ++ "]"))
  | .ok message_data =>
    match py_in "data" message_data with
    | .error e => .error e
    | .ok true => .ok ()
    | .ok false => .error (.valueError "Message missing 'data' field")

/-- An SQS record of a Lambda event: a mapping with an optional
`messageId` and an optional `body` (the body given by its `json.loads`
outcome). -/
structure SqsRecord where
  messageId : Option String
  body : Option BodyParse

/-- A Lambda event: a mapping that may carry a `Records` list. -/
structure LambdaEvent where
  records : Option (List SqsRecord)

/-- The response dictionary `lambda_handler` builds. -/
structure LambdaResponse where
  statusCode : Nat
  processed : Nat
  failed : Nat
  errors : List String
deriving Repr, DecidableEq

/-- What the try-block of `lambda_handler`'s per-record loop does before
any except clause runs: a processed record, the handled missing-body path
(a `continue`, no exception), or a raised exception. -/
inductive TryOutcome where
  | processedOne : TryOutcome
  | missingBody (mid : String) : TryOutcome
deriving BEq, Repr

/-- The try-block of one iteration of `lambda_handler`'s loop
(src/consumer.py:92-109): the missing-body check, then
`process_sqs_message` on the body, whose exception propagates to the
except clause. -/
def recordTryBody (record : SqsRecord) : Except PyErr TryOutcome :=
  match record.body with
  | none => .ok (.missingBody (record.messageId.getD "unknown"))
  | some body =>
    match process_sqs_message body with
    | .ok _ => .ok .processedOne
    | .error e => .error e

/-- One iteration of `lambda_handler`'s loop over `event['Records']`,
except clause included (src/consumer.py:91-114): a processed record
increments `processed`; the missing-body path and the
`except Exception` clause increment `failed` and append their error
string. -/
def recordStep (response : LambdaResponse) (record : SqsRecord) : LambdaResponse :=
  match recordTryBody record with
  | .ok .processedOne =>
    { response with processed := response.processed + 1 }
  | .ok (.missingBody mid) =>
    { response with
      failed := response.failed + 1
      errors := response.errors ++ ["Record missing 'body' field: " ++ mid] }
  | .error e =>
    { response with
      failed := response.failed + 1
      errors := response.errors ++
        ["Error processing message " ++ record.messageId.getD "unknown" ++ ": " ++
          str_of_pyerr e] }

/-- Embeds `lambda_handler` (src/consumer.py:66-125): the initial
response, the missing-`Records` early return, the per-record loop, and
the final status-code derivation. -/
def lambda_handler (event : LambdaEvent) : LambdaResponse :=
  let response : LambdaResponse :=
    { statusCode := 200, processed := 0, failed := 0, errors := [] }
  match event.records with
  | none =>
    { response with
      statusCode := 400
      errors := response.errors ++ ["No 'Records' found in event"] }
  | some records =>
    let response := records.foldl recordStep response
    if response.failed > 0 then
      let response := { response with statusCode := 207 }
      if response.processed = 0 then { response with statusCode := 500 }
      else response
    else response

/-- Whether a record is tallied as processed by `recordStep`. -/
def recordSucceeds (record : SqsRecord) : Bool :=
  match recordTryBody record with
  | .ok .processedOne => true
  | _ => false

/-- The error string a record contributes to the response's error list
(`none` when it is processed). -/
def recordError (record : SqsRecord) : Option String :=
  match recordTryBody record with
  | .ok .processedOne => none
  | .ok (.missingBody mid) => some ("Record missing 'body' field: " ++ mid)
  | .error e =>
    some ("Error processing message " ++ record.messageId.getD "unknown" ++ ": " ++
      str_of_pyerr e)

/-- A message fetched by the local poller's `receive_message` call: its
receipt handle, an optional `MessageId`, and an optional `Body` (the body
given by its `json.loads` outcome; an absent `Body` makes
`message['Body']` raise a `KeyError`). -/
structure PollMessage where
  receiptHandle : String
  messageId : Option String
  body : Option BodyParse

/-- The observable effect of the poller's handling of one fetched message:
how the running counters change and how many `delete_message` calls are
made for it. -/
structure PollEffect where
  processedDelta : Nat
  failedDelta : Nat
  deleteCalls : Nat
deriving Repr, DecidableEq

/-- Whether a raised exception matches the poller's
`except json.JSONDecodeError` clause. -/
def isJsonDecodeError : PyErr → Bool
  | .jsonDecodeError _ => true
  | _ => false

/-- Embeds the per-message try/except of `main`'s polling loop
(src/consumer.py:258-296).  The try-block reads `message['Body']`, calls
`process_sqs_message`, then `delete_message`, then increments the
processed counter; a raised `json.JSONDecodeError` increments the failed
counter and attempts a deletion whose own failure is swallowed; any other
raised exception increments the failed counter with no deletion call.
`deleteResult` is the outcome the external queue service gives a
`delete_message` call for this message's receipt handle. -/
def handleMessage (message : PollMessage) (deleteResult : Except PyErr Unit) :
    PollEffect :=
  match message.body with
  | none =>
    -- message['Body'] raises KeyError('Body'), caught by except Exception
    { processedDelta := 0, failedDelta := 1, deleteCalls := 0 }
  | some body =>
    match process_sqs_message body with
    | .ok _ =>
      match deleteResult with
      | .ok _ => { processedDelta := 1, failedDelta := 0, deleteCalls := 1 }
      | .error e =>
        -- the success-path delete call raised; dispatched to the except clauses
        if isJsonDecodeError e then
          { processedDelta := 0, failedDelta := 1, deleteCalls := 2 }
        else
          { processedDelta := 0, failedDelta := 1, deleteCalls := 1 }
    | .error e =>
      if isJsonDecodeError e then
        { processedDelta := 0, failedDelta := 1, deleteCalls := 1 }
      else
        { processedDelta := 0, failedDelta := 1, deleteCalls := 0 }

/-- A constructed SQS client, as far as this program determines it: the
region, the credentials of the underlying session, and the endpoint
override (`none` means the client is built without `endpoint_url`, i.e.
against the default production AWS endpoint). -/
structure SqsClient where
  region_name : String
  endpoint_url : Option String
  access_key_id : String
  secret_access_key : String
deriving Repr, DecidableEq

/-- Python truthiness of an optional string (`None` and the empty string
are falsy). -/
def py_truthy : Option String → Bool
  | none => false
  | some s => !(s == "")

/-- Embeds `get_sqs_client` (src/consumer.py:128-149): a truthy
`endpoint_url` yields a client with that custom endpoint, otherwise the
client is built without an endpoint override. -/
def get_sqs_client (endpoint_url : Option String) (region_name : String)
    (access_key_id : String) (secret_access_key : String) : SqsClient :=
  if py_truthy endpoint_url then
    { region_name := region_name
      endpoint_url := endpoint_url
      access_key_id := access_key_id
      secret_access_key := secret_access_key }
  else
    { region_name := region_name
      endpoint_url := none
      access_key_id := access_key_id
      secret_access_key := secret_access_key }

/-- The process environment: a partial map from variable names to values. -/
abbrev Env := String → Option String

/-- Python's `os.environ.get(key, dflt)`. -/
def env_get (env : Env) (key dflt : String) : String := (env key).getD dflt

/-- Embeds the configuration reading and client construction `main`
performs (src/consumer.py:207-223): every argument of `get_sqs_client` is
read from the environment with a default, `SQS_ENDPOINT_URL` defaulting
to the LocalStack address "http://localhost:4566". -/
def main_sqs_client (env : Env) : SqsClient :=
  let endpoint_url := env_get env "SQS_ENDPOINT_URL" "http://localhost:4566"
  let region_name := env_get env "SQS_REGION" "us-east-1"
  let access_key_id := env_get env "SQS_ACCESS_KEY_ID" "test"
  let secret_access_key := env_get env "SQS_SECRET_ACCESS_KEY" "test"
  get_sqs_client (some endpoint_url) region_name access_key_id secret_access_key

/-- A sample record with a valid body, for evaluating theorems at
concrete inputs. -/
def sampleValidRecord : SqsRecord :=
  { messageId := some "m1", body := some (.ok (Jval.obj [("data", Jval.null)])) }

/-- A sample record whose body fails to parse. -/
def sampleBadRecord : SqsRecord :=
  { messageId := some "m2", body := some (.error "Expecting value") }

/-- A sample event holding the two records above. -/
def sampleEvent : LambdaEvent :=
  { records := some [sampleValidRecord, sampleBadRecord] }

/-! ## Helper lemmas -/

theorem recordStep_statusCode (response : LambdaResponse) (record : SqsRecord) :
    (recordStep response record).statusCode = response.statusCode := by
  unfold recordStep
  cases h : recordTryBody record with
  | ok o => cases o <;> rfl
  | error e => rfl

theorem recordStep_processed (response : LambdaResponse) (record : SqsRecord) :
    (recordStep response record).processed =
      response.processed + (if recordSucceeds record then 1 else 0) := by
  unfold recordStep recordSucceeds
  cases h : recordTryBody record with
  | ok o => cases o <;> simp
  | error e => simp

theorem recordStep_failed (response : LambdaResponse) (record : SqsRecord) :
    (recordStep response record).failed =
      response.failed + (if recordSucceeds record then 0 else 1) := by
  unfold recordStep recordSucceeds
  cases h : recordTryBody record with
  | ok o => cases o <;> simp
  | error e => simp

theorem recordStep_errors (response : LambdaResponse) (record : SqsRecord) :
    (recordStep response record).errors =
      response.errors ++ (recordError record).toList := by
  unfold recordStep recordError
  cases h : recordTryBody record with
  | ok o => cases o <;> simp
  | error e => simp

theorem recordError_eq_none_iff (record : SqsRecord) :
    recordError record = none ↔ recordSucceeds record = true := by
  unfold recordError recordSucceeds
  cases h : recordTryBody record with
  | ok o => cases o <;> simp
  | error e => simp

theorem foldl_recordStep_statusCode (records : List SqsRecord)
    (response : LambdaResponse) :
    (records.foldl recordStep response).statusCode = response.statusCode := by
  induction records generalizing response with
  | nil => rfl
  | cons r rs ih => rw [List.foldl_cons, ih, recordStep_statusCode]

theorem foldl_recordStep_processed (records : List SqsRecord)
    (response : LambdaResponse) :
    (records.foldl recordStep response).processed =
      response.processed + records.countP (fun r => recordSucceeds r) := by
  induction records generalizing response with
  | nil => simp
  | cons r rs ih =>
    rw [List.foldl_cons, ih, recordStep_processed, List.countP_cons]
    cases h : recordSucceeds r with
    | false => simp [h]
    | true => simp [h]; omega

theorem foldl_recordStep_failed (records : List SqsRecord)
    (response : LambdaResponse) :
    (records.foldl recordStep response).failed =
      response.failed + records.countP (fun r => !recordSucceeds r) := by
  induction records generalizing response with
  | nil => simp
  | cons r rs ih =>
    rw [List.foldl_cons, ih, recordStep_failed, List.countP_cons]
    cases h : recordSucceeds r with
    | false => simp [h]; omega
    | true => simp [h]

theorem foldl_recordStep_errors (records : List SqsRecord)
    (response : LambdaResponse) :
    (records.foldl recordStep response).errors =
      response.errors ++ records.filterMap recordError := by
  induction records generalizing response with
  | nil => simp
  | cons r rs ih =>
    rw [List.foldl_cons, ih, recordStep_errors, List.filterMap_cons]
    cases h : recordError r <;> simp [h]

theorem length_filterMap_recordError (records : List SqsRecord) :
    (records.filterMap recordError).length =
      records.countP (fun r => !recordSucceeds r) := by
  induction records with
  | nil => rfl
  | cons r rs ih =>
    rw [List.filterMap_cons, List.countP_cons]
    cases h : recordError r with
    | none =>
      have hs := (recordError_eq_none_iff r).mp h
      simp [hs, ih]
    | some msg =>
      have hs : recordSucceeds r = false := by
        cases hq : recordSucceeds r
        · rfl
        · rw [(recordError_eq_none_iff r).mpr hq] at h
          cases h
      simp [hs, ih]

/-- The three projections of `lambda_handler`'s result other than the
status code are those of the loop's accumulated response: the final
status derivation touches only `statusCode`. -/
theorem lambda_handler_proj (event : LambdaEvent) (records : List SqsRecord)
    (h : event.records = some records) :
    (lambda_handler event).processed =
      (records.foldl recordStep
        { statusCode := 200, processed := 0, failed := 0, errors := [] }).processed ∧
    (lambda_handler event).failed =
      (records.foldl recordStep
        { statusCode := 200, processed := 0, failed := 0, errors := [] }).failed ∧
    (lambda_handler event).errors =
      (records.foldl recordStep
        { statusCode := 200, processed := 0, failed := 0, errors := [] }).errors := by
  simp only [lambda_handler, h]
  split_ifs <;> exact ⟨rfl, rfl, rfl⟩

theorem py_in_error_typeError (key : String) (v : Jval) (e : PyErr)
    (h : py_in key v = .error e) : ∃ m, e = .typeError m := by
  cases v <;> simp [py_in] at h <;> exact ⟨_, h.symm⟩

theorem process_sqs_message_error_not_json (body : BodyParse) (e : PyErr)
    (h : process_sqs_message body = .error e) : isJsonDecodeError e = false := by
  unfold process_sqs_message at h
  cases body with
  | error ex =>
    simp at h
    rw [← h]
    rfl
  | ok v =>
    dsimp only at h
    cases hp : py_in "data" v with
    | ok b =>
      rw [hp] at h
      cases b
      · simp at h
        rw [← h]
        rfl
      · simp at h
    | error e2 =>
      rw [hp] at h
      dsimp only at h
      simp at h
      obtain ⟨m, hm⟩ := py_in_error_typeError "data" v e2 hp
      rw [← h, hm]
      rfl

theorem strContainsSub_of_infix (haystack needle : String)
    (h : needle.data <:+: haystack.data) : strContainsSub haystack needle = true := by
  obtain ⟨t, hpre, hsuf⟩ := List.infix_iff_prefix_suffix.mp h
  unfold strContainsSub
  rw [List.any_eq_true]
  exact ⟨t, (List.mem_tails _ _).mpr hsuf, List.isPrefixOf_iff_prefix.mpr hpre⟩

theorem infix_of_strContainsSub (haystack needle : String)
    (h : strContainsSub haystack needle = true) : needle.data <:+: haystack.data := by
  unfold strContainsSub at h
  rw [List.any_eq_true] at h
  obtain ⟨t, ht, hp⟩ := h
  exact List.infix_iff_prefix_suffix.mpr
    ⟨t, List.isPrefixOf_iff_prefix.mp hp, (List.mem_tails _ _).mp ht⟩

theorem strContainsSub_append_right (a b needle : String)
    (h : strContainsSub a needle = true) : strContainsSub (a ++ b) needle = true := by
  apply strContainsSub_of_infix
  obtain ⟨s, t, hst⟩ := infix_of_strContainsSub a needle h
  refine ⟨s, t ++ b.data, ?_⟩
  rw [String.data_append, ← hst]
  simp

/-! ## Claim theorems -/

/-- C4 (counterexample): the Validator succeeds on the parsed body
`["data"]` — a JSON array, not an object — because Python's membership
test finds the string "data" among the array's elements.  So "succeeds
iff the parsed top-level object contains the key" fails: here the
parsed top-level value is no object at all, yet validation succeeds. -/
theorem c4_nonobject_counterexample :
    process_sqs_message (.ok (Jval.arr [Jval.str "data"])) = .ok () ∧
    (∀ entries, Jval.arr [Jval.str "data"] ≠ Jval.obj entries) :=
  ⟨rfl, fun _ hmm => Jval.noConfusion hmm⟩

/-- C4 (amended): the Validator succeeds if and only if the body parses
and Python's membership test `'data' in parsed` evaluates to true — key
membership for an object (any value, an empty mapping included), element
equality for an array, substring for a string; for the remaining
non-iterable results the test raises and the Validator fails. -/
theorem c4_validator_success_iff (parsed : BodyParse) :
    process_sqs_message parsed = .ok () ↔
      ∃ v, parsed = .ok v ∧ py_in "data" v = .ok true := by
  cases parsed with
  | error ex => simp [process_sqs_message]
  | ok v =>
    cases hp : py_in "data" v with
    | ok b => cases b <;> simp [process_sqs_message, hp]
    | error e => simp [process_sqs_message, hp]

/-- C5 (counterexample): the parseable body `5` lacks the key "data",
yet the Validator does not signal the distinct missing-field error kind:
the membership test itself raises a `TypeError` whose message does not
mention "data" at all. -/
theorem c5_number_body_counterexample :
    process_sqs_message (.ok (Jval.num 5)) =
      .error (.typeError "argument of type 'int' is not iterable") ∧
    strContainsSub "argument of type 'int' is not iterable" "data" = false ∧
    (∀ m, PyErr.typeError "argument of type 'int' is not iterable" ≠
      PyErr.valueError m) := by
  refine ⟨rfl, ?_, fun m hmm => PyErr.noConfusion hmm⟩
  decide

/-- C5 (amended): every unparseable body yields a plain Exception whose
message contains the marker "Data Load Error" and wraps the original
parse error description; every parseable body on which the membership
test evaluates to false yields the distinct ValueError naming the missing
'data' field; a parseable body on which the membership test itself raises
(a number, boolean or null) propagates that TypeError instead; and the
two documented kinds are distinguishable. -/
theorem c5_failure_kinds (ex : String) (v : Jval) (e : PyErr) :
    (process_sqs_message (.error ex) =
      .error (.exc ("[Data Load Error] [" ++ ex ++ "]"))) ∧
    strContainsSub ("[Data Load Error] [" ++ ex ++ "]") "Data Load Error" = true ∧
    (py_in "data" v = .ok false →
      process_sqs_message (.ok v) =
        .error (.valueError "Message missing 'data' field")) ∧
    (py_in "data" v = .error e → process_sqs_message (.ok v) = .error e) ∧
    (∀ m m2, PyErr.exc m ≠ PyErr.valueError m2) := by
  refine ⟨rfl, ?_, ?_, ?_, fun m m2 hmm => PyErr.noConfusion hmm⟩
  · apply strContainsSub_append_right
    apply strContainsSub_append_right
    decide
  · intro hv
    simp only [process_sqs_message, hv]
  · intro hv
    simp only [process_sqs_message, hv]

/-- C5 (witness): the two explicit failure branches of
`c5_failure_kinds` at concrete inputs: a parsed object lacking "data"
gets the ValueError, and a parsed `null` gets the TypeError. -/
theorem c5_failure_kinds_witness :
    process_sqs_message (.ok (Jval.obj [("metadata", Jval.obj [])])) =
      .error (.valueError "Message missing 'data' field") ∧
    process_sqs_message (.ok Jval.null) =
      .error (.typeError "argument of type 'NoneType' is not iterable") :=
  ⟨(c5_failure_kinds "x" (Jval.obj [("metadata", Jval.obj [])])
      (.typeError "argument of type 'NoneType' is not iterable")).2.2.1 rfl,
   (c5_failure_kinds "x" Jval.null
      (.typeError "argument of type 'NoneType' is not iterable")).2.2.2.1 rfl⟩

/-- C6: an event with no `Records` collection short-circuits to the fixed
bad-request result: status 400, nothing processed, nothing failed, and
exactly one error entry. -/
theorem c6_no_records (event : LambdaEvent) (h : event.records = none) :
    lambda_handler event =
      { statusCode := 400, processed := 0, failed := 0,
        errors := ["No 'Records' found in event"] } ∧
    (lambda_handler event).errors.length = 1 := by
  constructor <;> simp [lambda_handler, h]

/-- C6 (witness): `c6_no_records` at the concrete event without a
`Records` collection. -/
theorem c6_no_records_witness :
    lambda_handler { records := none } =
      { statusCode := 400, processed := 0, failed := 0,
        errors := ["No 'Records' found in event"] } ∧
    (lambda_handler { records := none }).errors.length = 1 :=
  c6_no_records { records := none } rfl

/-- C1: for an event whose `Records` collection is present, the aggregate
status of `lambda_handler`'s result is 200 when its failed count is 0,
207 when failed and processed are both positive, and 500 when failed is
positive and processed is 0; and the zero-record batch yields the success
result with empty tallies. -/
theorem c1_aggregate_status (event : LambdaEvent) (records : List SqsRecord)
    (h : event.records = some records) :
    ((lambda_handler event).failed = 0 → (lambda_handler event).statusCode = 200) ∧
    ((lambda_handler event).failed > 0 → (lambda_handler event).processed > 0 →
      (lambda_handler event).statusCode = 207) ∧
    ((lambda_handler event).failed > 0 → (lambda_handler event).processed = 0 →
      (lambda_handler event).statusCode = 500) ∧
    lambda_handler { records := some [] } =
      { statusCode := 200, processed := 0, failed := 0, errors := [] } := by
  have hsc := foldl_recordStep_statusCode records
    { statusCode := 200, processed := 0, failed := 0, errors := [] }
  refine ⟨?_, ?_, ?_, rfl⟩ <;>
    (simp only [lambda_handler, h]; split_ifs with h1 h2 <;> intros <;> simp_all)

/-- C1 (witness): `c1_aggregate_status` at a concrete two-record event
with one valid and one unparseable body. -/
theorem c1_aggregate_status_witness :
    ((lambda_handler sampleEvent).failed = 0 →
      (lambda_handler sampleEvent).statusCode = 200) ∧
    ((lambda_handler sampleEvent).failed > 0 →
      (lambda_handler sampleEvent).processed > 0 →
      (lambda_handler sampleEvent).statusCode = 207) ∧
    ((lambda_handler sampleEvent).failed > 0 →
      (lambda_handler sampleEvent).processed = 0 →
      (lambda_handler sampleEvent).statusCode = 500) ∧
    lambda_handler { records := some [] } =
      { statusCode := 200, processed := 0, failed := 0, errors := [] } :=
  c1_aggregate_status sampleEvent [sampleValidRecord, sampleBadRecord] rfl

/-- Every record is tallied exactly once: the processed tally and the
failed tally of a record list sum to its length. -/
theorem countP_succeeds_add_fails (records : List SqsRecord) :
    records.countP (fun r => recordSucceeds r) +
      records.countP (fun r => !recordSucceeds r) = records.length := by
  induction records with
  | nil => rfl
  | cons r rs ih =>
    rw [List.countP_cons, List.countP_cons, List.length_cons]
    cases h : recordSucceeds r with
    | false => simp [h]; omega
    | true => simp [h]; omega

/-- C3: the handler returns a result for every event with records and no
exception escapes: each record's outcome is dispatched by the loop's
except clause into the tallies, so processed counts exactly the
successful records, failed counts exactly the failing ones (missing
body, parse failure, schema failure, or the membership test's own
error), and every failure contributes exactly one error entry. -/
theorem c3_failures_encoded (event : LambdaEvent) (records : List SqsRecord)
    (h : event.records = some records) :
    (lambda_handler event).processed =
      records.countP (fun r => recordSucceeds r) ∧
    (lambda_handler event).failed =
      records.countP (fun r => !recordSucceeds r) ∧
    (lambda_handler event).errors.length = (lambda_handler event).failed := by
  obtain ⟨hp, hf, he⟩ := lambda_handler_proj event records h
  rw [hp, hf, he, foldl_recordStep_processed, foldl_recordStep_failed,
    foldl_recordStep_errors]
  simp [length_filterMap_recordError]

/-- C3 (witness): `c3_failures_encoded` at the concrete sample event. -/
theorem c3_failures_encoded_witness :
    (lambda_handler sampleEvent).processed =
      [sampleValidRecord, sampleBadRecord].countP (fun r => recordSucceeds r) ∧
    (lambda_handler sampleEvent).failed =
      [sampleValidRecord, sampleBadRecord].countP (fun r => !recordSucceeds r) ∧
    (lambda_handler sampleEvent).errors.length =
      (lambda_handler sampleEvent).failed :=
  c3_failures_encoded sampleEvent [sampleValidRecord, sampleBadRecord] rfl

/-- C10: over an event's record list, processed + failed equals the
number of records, the error list holds exactly one entry per failed
record, and the error entries appear in processing (arrival) order —
they are exactly the per-record error strings in list order. -/
theorem c10_batch_result_invariants (event : LambdaEvent)
    (records : List SqsRecord) (h : event.records = some records) :
    (lambda_handler event).processed + (lambda_handler event).failed =
      records.length ∧
    (lambda_handler event).errors.length = (lambda_handler event).failed ∧
    (lambda_handler event).errors = records.filterMap recordError := by
  obtain ⟨hp, hf, he⟩ := lambda_handler_proj event records h
  rw [hp, hf, he, foldl_recordStep_processed, foldl_recordStep_failed,
    foldl_recordStep_errors]
  refine ⟨?_, ?_, by simp⟩
  · simp [countP_succeeds_add_fails]
  · simp [length_filterMap_recordError]

/-- C10 (witness): `c10_batch_result_invariants` at the concrete sample
event. -/
theorem c10_batch_result_invariants_witness :
    (lambda_handler sampleEvent).processed +
      (lambda_handler sampleEvent).failed =
      [sampleValidRecord, sampleBadRecord].length ∧
    (lambda_handler sampleEvent).errors.length =
      (lambda_handler sampleEvent).failed ∧
    (lambda_handler sampleEvent).errors =
      [sampleValidRecord, sampleBadRecord].filterMap recordError :=
  c10_batch_result_invariants sampleEvent [sampleValidRecord, sampleBadRecord] rfl

/-- C8: a record lacking a body raises no exception — the try-block
returns the handled missing-body outcome — the step increments the
failed count and appends the error string referencing the record's
message identifier (or "unknown"), and the loop continues with the
remaining records. -/
theorem c8_missing_body (response : LambdaResponse) (record : SqsRecord)
    (pre post : List SqsRecord) (h : record.body = none) :
    recordTryBody record = .ok (.missingBody (record.messageId.getD "unknown")) ∧
    recordStep response record =
      { response with
        failed := response.failed + 1
        errors := response.errors ++
          ["Record missing 'body' field: " ++ record.messageId.getD "unknown"] } ∧
    (pre ++ record :: post).foldl recordStep response =
      post.foldl recordStep (recordStep (pre.foldl recordStep response) record) := by
  have h1 : recordTryBody record =
      .ok (.missingBody (record.messageId.getD "unknown")) := by
    unfold recordTryBody
    rw [h]
  refine ⟨h1, ?_, ?_⟩
  · simp only [recordStep, h1]
  · rw [List.foldl_append, List.foldl_cons]

/-- C8 (witness): `c8_missing_body` at a concrete record without body or
message identifier, alone in its batch. -/
theorem c8_missing_body_witness :
    recordTryBody { messageId := none, body := none } =
      .ok (.missingBody "unknown") ∧
    recordStep { statusCode := 200, processed := 0, failed := 0, errors := [] }
        { messageId := none, body := none } =
      { statusCode := 200, processed := 0, failed := 1,
        errors := ["Record missing 'body' field: " ++ "unknown"] } ∧
    ([] ++ ({ messageId := none, body := none } : SqsRecord) ::
        ([] : List SqsRecord)).foldl
        recordStep { statusCode := 200, processed := 0, failed := 0, errors := [] } =
      ([] : List SqsRecord).foldl recordStep
        (recordStep (([] : List SqsRecord).foldl recordStep
            { statusCode := 200, processed := 0, failed := 0, errors := [] })
          { messageId := none, body := none }) :=
  c8_missing_body { statusCode := 200, processed := 0, failed := 0, errors := [] }
    { messageId := none, body := none } [] [] rfl

/-- C7: a fetched message whose body parses but whose processing then
fails (schema failure from the missing key, or the membership test's own
error) is not acknowledged — no delete_message call is made — and the
failed counter is incremented; the raised error never matches the
json.JSONDecodeError clause. -/
theorem c7_poller_no_ack_other_failures (message : PollMessage) (v : Jval)
    (e : PyErr) (deleteResult : Except PyErr Unit)
    (hb : message.body = some (.ok v))
    (hf : process_sqs_message (.ok v) = .error e) :
    handleMessage message deleteResult =
      { processedDelta := 0, failedDelta := 1, deleteCalls := 0 } := by
  have hnj := process_sqs_message_error_not_json (.ok v) e hf
  simp [handleMessage, hb, hf, hnj]

/-- C7 (witness): `c7_poller_no_ack_other_failures` at a concrete message
whose parsed body lacks the "data" key (schema failure). -/
theorem c7_poller_no_ack_other_failures_witness :
    handleMessage
        { receiptHandle := "rh-1", messageId := some "m1",
          body := some (.ok (Jval.obj [("metadata", Jval.obj [])])) } (.ok ()) =
      { processedDelta := 0, failedDelta := 1, deleteCalls := 0 } :=
  c7_poller_no_ack_other_failures
    { receiptHandle := "rh-1", messageId := some "m1",
      body := some (.ok (Jval.obj [("metadata", Jval.obj [])])) }
    (Jval.obj [("metadata", Jval.obj [])])
    (.valueError "Message missing 'data' field") (.ok ()) rfl rfl

/-- C2 (evaluation at the failing input): a fetched message whose body
fails to parse is wrapped by `process_sqs_message` into a plain
Exception, which does not match the `except json.JSONDecodeError`
clause, so the poller's handling of that message increments the failed
counter and makes no delete_message call — the message is not
acknowledged. -/
theorem c2_parse_failure_not_deleted :
    process_sqs_message (.error "Expecting value: line 1 column 1 (char 0)") =
      .error (.exc ("[Data Load Error] [" ++
        "Expecting value: line 1 column 1 (char 0)" ++ "]")) ∧
    isJsonDecodeError (.exc ("[Data Load Error] [" ++
      "Expecting value: line 1 column 1 (char 0)" ++ "]")) = false ∧
    handleMessage
        { receiptHandle := "rh-1", messageId := some "m1",
          body := some (.error "Expecting value: line 1 column 1 (char 0)") }
        (.ok ()) =
      { processedDelta := 0, failedDelta := 1, deleteCalls := 0 } :=
  ⟨rfl, rfl, rfl⟩

/-- C9 (counterexample): with SQS_ENDPOINT_URL absent from the
environment, main builds its client against the LocalStack default
"http://localhost:4566" — an explicit custom endpoint override — not
against the default production endpoint (no override). -/
theorem c9_default_endpoint_counterexample :
    main_sqs_client (fun _ => none) =
      { region_name := "us-east-1"
        endpoint_url := some "http://localhost:4566"
        access_key_id := "test"
        secret_access_key := "test" } ∧
    (main_sqs_client (fun _ => none)).endpoint_url ≠ none := by
  refine ⟨rfl, ?_⟩
  decide

/-- C9 (amended): when the queue endpoint address is absent from the
process configuration, the Local Poller's client is constructed with the
LocalStack default endpoint override "http://localhost:4566"; the
default production endpoint is only used when the configured value is
falsy (empty). -/
theorem c9_endpoint_default (env : Env) (h : env "SQS_ENDPOINT_URL" = none) :
    (main_sqs_client env).endpoint_url = some "http://localhost:4566" := by
  unfold main_sqs_client env_get get_sqs_client
  rw [h]
  simp [py_truthy]

/-- C9 (witness): `c9_endpoint_default` at the empty environment. -/
theorem c9_endpoint_default_witness :
    (main_sqs_client (fun _ => none)).endpoint_url =
      some "http://localhost:4566" :=
  c9_endpoint_default (fun _ => none) rfl

end SqsBase
